import Mathlib

/-!
Shallow embedding of the JODDB task-workflow backend (Django app `core`):
the data model (`core/models.py`), the workflow transitions
(`core/views.py`), the serializer validation (`core/serializers.py`), the
job-order fan-out signal (`core/signals.py`) and the technician metrics
(`core/metrics/calculations.py`).

Modelling conventions:
- Roles, statuses and decisions are plain strings in the source (Django
  `CharField` with choices); the embedding keeps them as `String`.
- Timestamps are integers counting microseconds since the epoch (Python
  datetimes have microsecond resolution).
- Python float arithmetic is idealized as exact rational arithmetic, and
  Python's `round` as round-half-to-even on rationals.
- Database rows live in Lean lists ordered by creation time (ascending
  `created_at`), so `order_by('-created_at').first()` is the last match.
- HTTP responses become `Except ApiError`: an `.error` response performs no
  mutation (the handlers return before writing, or Django rolls the
  transaction back), so returning the error without a new state is faithful.
- Notification messages and payloads are elided; a notification keeps its
  target user id and its `type` tag, which is all the claims mention.
-/

namespace JODDB

/-- A row of the custom `User` model: primary key, `role` and `is_active`. -/
structure User where
  id : Nat
  role : String
  isActive : Bool
deriving DecidableEq

/-- A `Task` row (`core/models.py`, class `Task`).  `technician` holds the
assigned user's id.  `standard_time_seconds` is non-nullable in the model;
`start_time`, `end_time` and `actual_time_seconds` are nullable. -/
structure Task where
  technician : Option Nat
  operationName : String
  standardTimeSeconds : Int
  taskType : String
  startTime : Option Int
  endTime : Option Int
  actualTimeSeconds : Option Int
  status : String
deriving DecidableEq

/-- A `Device` row: unique serial number and `current_status`. -/
structure Device where
  serialNumber : String
  currentStatus : String
deriving DecidableEq

/-- An `Inspection` row: nullable `inspector`, `decision`, `comments`.
The task/device links are implicit: a workflow state holds the inspections
of its single task. -/
structure Inspection where
  inspector : Option Nat
  decision : String
  comments : String
deriving DecidableEq

/-- A `TesterReview` row (task link implicit). -/
structure TesterReview where
  tester : Option Nat
  decision : String
  comments : String
deriving DecidableEq

/-- A `SupervisorReview` row (inspection link implicit). -/
structure SupervisorReview where
  supervisor : Option Nat
  decision : String
  comments : String
deriving DecidableEq

/-- A `Notification` row, reduced to the target user id and the `type` tag. -/
structure Notification where
  userId : Nat
  type : String
deriving DecidableEq

/-- Django's `get_status_display` over `Task.STATUS_CHOICES`; unknown keys
display as themselves. -/
def getStatusDisplay (s : String) : String :=
  if s == "available" then "Available"
  else if s == "in_progress" then "In Progress"
  else if s == "done" then "Done"
  else if s == "pending_qa" then "Pending QA"
  else if s == "qa_approved" then "QA Approved"
  else if s == "pending_tester" then "Pending Tester"
  else if s == "tester_approved" then "Tester Approved"
  else if s == "pending_supervisor" then "Pending Supervisor"
  else if s == "supervisor_approved" then "Supervisor Approved"
  else if s == "rejected" then "Rejected"
  else if s == "completed" then "Completed"
  else s

/-- Round a rational to the nearest integer, ties to even (Python's `round`
on an exact value). -/
def roundHalfEven (q : ℚ) : ℤ :=
  let n := Int.floor q
  let r := q - (n : ℚ)
  if r < 1/2 then n
  else if 1/2 < r then n + 1
  else if n % 2 = 0 then n else n + 1

/-- Python's `round(x, 2)` idealized over the rationals. -/
def round2 (q : ℚ) : ℚ := (roundHalfEven (q * 100) : ℚ) / 100

/-- Model method `Task.calculate_efficiency` (`core/models.py`):
`if self.actual_time_seconds and self.actual_time_seconds > 0:` then
`round((self.standard_time_seconds / self.actual_time_seconds) * 100, 2)`,
else `None`.  Python truthiness of the integer field is `≠ None ∧ ≠ 0`. -/
def Task.calculateEfficiency (t : Task) : Option ℚ :=
  match t.actualTimeSeconds with
  | some a => if a ≠ 0 ∧ 0 < a
      then some (round2 ((t.standardTimeSeconds : ℚ) / (a : ℚ) * 100))
      else none
  | none => none

/-- Serializer read `TaskSerializer.get_efficiency` (`core/serializers.py`) calls the model
method on every read; the `Task` model stores no efficiency field. -/
def taskSerializerEfficiency (t : Task) : Option ℚ := t.calculateEfficiency

/-- C3: for every Task the derived efficiency read is defined iff
`actual_time_seconds` is non-null and strictly positive; when defined it is
`(standard / actual) * 100` rounded to two decimals; and the serializer
recomputes it from the model method on every read (there is no stored
efficiency field in the `Task` row to read from). -/
theorem c3_efficiency_derived (t : Task) :
    ((taskSerializerEfficiency t).isSome ↔ ∃ a : ℤ, t.actualTimeSeconds = some a ∧ 0 < a)
    ∧ (∀ a : ℤ, t.actualTimeSeconds = some a → 0 < a →
        taskSerializerEfficiency t
          = some (round2 ((t.standardTimeSeconds : ℚ) / (a : ℚ) * 100)))
    ∧ taskSerializerEfficiency t = t.calculateEfficiency := by
  refine ⟨?_, ?_, rfl⟩
  · unfold taskSerializerEfficiency Task.calculateEfficiency
    cases h : t.actualTimeSeconds with
    | none => simp
    | some a =>
      by_cases ha : 0 < a
      · simp [ha, ne_of_gt ha]
      · simp [ha]
  · intro a ha hpos
    unfold taskSerializerEfficiency Task.calculateEfficiency
    rw [ha]
    simp [ne_of_gt hpos, hpos]

/-- A concrete task used to witness C3. -/
def c3SampleTask : Task :=
  { technician := none, operationName := "assemble", standardTimeSeconds := 600,
    taskType := "technician", startTime := none, endTime := none,
    actualTimeSeconds := some 500, status := "pending_qa" }

/-- Witness for C3 at a concrete task (standard 600 s, actual 500 s). -/
theorem c3_efficiency_derived_witness :
    c3SampleTask.actualTimeSeconds = some 500 ∧ (0 : ℤ) < 500 ∧
      taskSerializerEfficiency c3SampleTask
        = some (round2 (((600 : ℤ) : ℚ) / ((500 : ℤ) : ℚ) * 100)) :=
  ⟨rfl, by decide, (c3_efficiency_derived c3SampleTask).2.1 500 rfl (by decide)⟩

/-- A `Process` row: one step template of a Job.  A `Job`'s process list
below is kept sorted by the `order` field, matching the
`order_by('order')` query in the signal handler. -/
structure Process where
  operationName : String
  standardTimeSeconds : Int
  taskType : String
  order : Nat
deriving DecidableEq

/-- A `Job` template row with its processes, in `order_by('order')` order. -/
structure Job where
  processes : List Process
deriving DecidableEq

/-- A `JobOrder` row (the fields the fan-out signal reads). -/
structure JobOrder where
  orderCode : String
  totalDevices : Nat
  job : Option Job
deriving DecidableEq

/-- A `Task` row as built by the fan-out signal, with its device link. -/
structure GeneratedTask where
  deviceSerial : String
  operationName : String
  standardTimeSeconds : Int
  taskType : String
  status : String
deriving DecidableEq

/-- The rows inserted by one run of the fan-out signal handler. -/
structure FanoutResult where
  devices : List Device
  tasks : List GeneratedTask
deriving DecidableEq

/-- Python's `f"{n:04d}"`: decimal digits left-padded with zeros to width 4. -/
def pad4 (n : Nat) : String :=
  let s := Nat.repr n
  if s.length < 4 then String.mk (List.replicate (4 - s.length) '0') ++ s else s

/-- Serial of the (i+1)-st device: `f"{instance.order_code}-{i + 1:04d}"`. -/
def fanoutSerial (orderCode : String) (i : Nat) : String := orderCode ++ "-" ++ pad4 i

/-- Signal handler `create_devices_and_tasks_for_job_order` (`core/signals.py`): on a newly
created JobOrder whose job link is non-null, fetch the job's processes in
order; if there are none, return immediately; otherwise create
`total_devices` devices (serial `{order_code}-{i + 1:04d}` for
`i in range(total_devices)`, status defaulting to `pending`) and then, for
each created device, one task per process copying `operation_name`,
`standard_time_seconds` and `task_type`, with status `available`.  The
embedding returns the created rows; nothing is created when `created` is
false, the job link is null, or the job has no processes. -/
def createDevicesAndTasksForJobOrder (jo : JobOrder) (created : Bool) : FanoutResult :=
  if created then
    match jo.job with
    | none => { devices := [], tasks := [] }
    | some job =>
      if job.processes.isEmpty then { devices := [], tasks := [] }
      else
        let devices := (List.range jo.totalDevices).map
          (fun i => ({ serialNumber := fanoutSerial jo.orderCode (i + 1),
                       currentStatus := "pending" } : Device))
        let tasks := devices.flatMap (fun d => job.processes.map (fun p =>
          ({ deviceSerial := d.serialNumber, operationName := p.operationName,
             standardTimeSeconds := p.standardTimeSeconds, taskType := p.taskType,
             status := "available" } : GeneratedTask)))
        { devices := devices, tasks := tasks }
  else { devices := [], tasks := [] }

/-- Length of a flat map all whose pieces share one length. -/
theorem length_flatMap_const {α β : Type} (l : List α) (g : α → List β) (k : Nat)
    (h : ∀ a, (g a).length = k) : (l.flatMap g).length = l.length * k := by
  induction l with
  | nil => simp
  | cons x xs ih => simp [ih, h, Nat.succ_mul, Nat.add_comm]

/-- C2: a newly created JobOrder referencing a Job with at least one
Process fans out into exactly `total_devices` devices — the i-th (0-based
i, serial index i+1) having serial `{order_code}-{i+1:04d}` and status
`pending` — and exactly one task per (device, process) pair copying
`operation_name`, `standard_time_seconds` and `task_type` from the process
with status `available`; a Job with no processes yields no devices and no
tasks. -/
theorem c2_fanout (jo : JobOrder) (j : Job) (hj : jo.job = some j) :
    (j.processes ≠ [] →
      (createDevicesAndTasksForJobOrder jo true).devices
          = (List.range jo.totalDevices).map
              (fun i => ({ serialNumber := fanoutSerial jo.orderCode (i + 1),
                           currentStatus := "pending" } : Device))
      ∧ (createDevicesAndTasksForJobOrder jo true).devices.length = jo.totalDevices
      ∧ (∀ i, ∀ hi : i < (createDevicesAndTasksForJobOrder jo true).devices.length,
          (createDevicesAndTasksForJobOrder jo true).devices.get ⟨i, hi⟩
            = ({ serialNumber := fanoutSerial jo.orderCode (i + 1),
                 currentStatus := "pending" } : Device))
      ∧ (createDevicesAndTasksForJobOrder jo true).tasks
          = (createDevicesAndTasksForJobOrder jo true).devices.flatMap
              (fun d => j.processes.map (fun p =>
                ({ deviceSerial := d.serialNumber, operationName := p.operationName,
                   standardTimeSeconds := p.standardTimeSeconds, taskType := p.taskType,
                   status := "available" } : GeneratedTask)))
      ∧ (createDevicesAndTasksForJobOrder jo true).tasks.length
          = jo.totalDevices * j.processes.length)
    ∧ (j.processes = [] →
        createDevicesAndTasksForJobOrder jo true = { devices := [], tasks := [] }) := by
  constructor
  · intro hne
    have hdev : (createDevicesAndTasksForJobOrder jo true).devices
        = (List.range jo.totalDevices).map
            (fun i => ({ serialNumber := fanoutSerial jo.orderCode (i + 1),
                         currentStatus := "pending" } : Device)) := by
      simp [createDevicesAndTasksForJobOrder, hj, hne]
    have htasks : (createDevicesAndTasksForJobOrder jo true).tasks
        = ((List.range jo.totalDevices).map
            (fun i => ({ serialNumber := fanoutSerial jo.orderCode (i + 1),
                         currentStatus := "pending" } : Device))).flatMap
            (fun d => j.processes.map (fun p =>
              ({ deviceSerial := d.serialNumber, operationName := p.operationName,
                 standardTimeSeconds := p.standardTimeSeconds, taskType := p.taskType,
                 status := "available" } : GeneratedTask))) := by
      simp [createDevicesAndTasksForJobOrder, hj, hne]
    refine ⟨hdev, ?_, ?_, ?_, ?_⟩
    · rw [hdev]; simp
    · intro i hi
      rw [hdev] at hi
      have hi2 : i < jo.totalDevices := by simpa using hi
      simp [hdev, List.get_eq_getElem, hi2]
    · rw [htasks, hdev]
    · rw [htasks, length_flatMap_const _ _ j.processes.length (fun d => by simp)]
      simp [Nat.mul_comm]
  · intro hpe
    simp [createDevicesAndTasksForJobOrder, hj, hpe]

/-- A concrete job with two processes, used to witness C2. -/
def c2Job : Job :=
  { processes :=
      [ { operationName := "step A", standardTimeSeconds := 600, taskType := "technician", order := 1 },
        { operationName := "step B", standardTimeSeconds := 300, taskType := "technician", order := 2 } ] }

/-- A concrete job order over `c2Job` with three devices. -/
def c2JobOrder : JobOrder := { orderCode := "JO-1", totalDevices := 3, job := some c2Job }

/-- Witness for C2 at a concrete job order (3 devices, 2 processes). -/
theorem c2_fanout_witness :
    c2JobOrder.job = some c2Job ∧ c2Job.processes ≠ [] ∧
      (createDevicesAndTasksForJobOrder c2JobOrder true).devices.length = 3 ∧
      (createDevicesAndTasksForJobOrder c2JobOrder true).tasks.length = 6 :=
  ⟨rfl, by decide,
    ((c2_fanout c2JobOrder c2Job rfl).1 (by decide)).2.1,
    ((c2_fanout c2JobOrder c2Job rfl).1 (by decide)).2.2.2.2⟩

/-- C10: a JobOrder created without a job reference fans out into no
devices and no tasks; the creation itself is untouched (the signal handler
returns without raising). -/
theorem c10_fanout_null_job (jo : JobOrder) (h : jo.job = none) :
    (createDevicesAndTasksForJobOrder jo true).devices = []
    ∧ (createDevicesAndTasksForJobOrder jo true).tasks = [] := by
  simp [createDevicesAndTasksForJobOrder, h]

/-- A concrete job order with a null job link, used to witness C10. -/
def c10JobOrder : JobOrder := { orderCode := "JO-2", totalDevices := 5, job := none }

/-- Witness for C10 at a concrete job order. -/
theorem c10_fanout_null_job_witness :
    c10JobOrder.job = none ∧
      (createDevicesAndTasksForJobOrder c10JobOrder true).devices = [] ∧
      (createDevicesAndTasksForJobOrder c10JobOrder true).tasks = [] :=
  ⟨rfl, (c10_fanout_null_job c10JobOrder rfl).1, (c10_fanout_null_job c10JobOrder rfl).2⟩

/-- A structured API error: `conflict` models the HTTP 400 "wrong status"
responses (the detail string carries the task's current status display),
`forbidden` the 403 response, `validation` a serializer `ValidationError`
keyed by field, `notFound` a missing referenced row. -/
inductive ApiError where
  | conflict (detail : String)
  | forbidden (detail : String)
  | validation (field : String) (detail : String)
  | notFound (detail : String)
deriving DecidableEq

/-- The slice of the durable store one workflow transition touches: one
task, its device, the user table, and the task's inspection / review /
notification rows (lists in ascending `created_at` order). -/
structure WfState where
  task : Task
  device : Device
  users : List User
  inspections : List Inspection
  testerReviews : List TesterReview
  supervisorReviews : List SupervisorReview
  notifications : List Notification
deriving DecidableEq

/-- One notification per user of `User.objects.filter(role=role, is_active=True)`,
in table order — the fan-out loops of the views. -/
def notifyRole (users : List User) (role ty : String) : List Notification :=
  (users.filter (fun u => u.role == role && u.isActive)).map
    (fun u => ({ userId := u.id, type := ty } : Notification))

/-- Transition `TechnicianTaskViewSet.start` (`core/views.py`): reject with the current
status display unless the task is `available`; otherwise assign the actor,
stamp `start_time`, move task and device to `in_progress`. -/
def startTask (st : WfState) (actor : Nat) (now : Int) : Except ApiError WfState :=
  if st.task.status ≠ "available" then
    .error (.conflict ("Task cannot be started. Current status: "
      ++ getStatusDisplay st.task.status ++ "."))
  else
    .ok { st with
      task := { st.task with
                technician := some actor
                startTime := some now
                status := "in_progress" },
      device := { st.device with currentStatus := "in_progress" } }

/-- Transition `TechnicianTaskViewSet.end` (`core/views.py`): checks, in order, the
status, the actor against the assigned technician, and the presence of
`start_time`; then atomically stamps `end_time := now`, computes
`actual_time_seconds = int((end - start).total_seconds())` (truncation of
the microsecond difference), moves the task to `pending_qa` and the device
to `completed`, inserts one pending inspection with a null inspector, and
notifies every active quality, tester and supervisor user. -/
def endTask (st : WfState) (actor : Nat) (now : Int) : Except ApiError WfState :=
  if st.task.status ≠ "in_progress" then
    .error (.conflict ("Task cannot be ended. Current status: "
      ++ getStatusDisplay st.task.status ++ "."))
  else if st.task.technician ≠ some actor then
    .error (.forbidden "You are not the assigned technician for this task.")
  else
    match st.task.startTime with
    | none => .error (.conflict "Task start time is missing. Cannot calculate duration.")
    | some s =>
      .ok { st with
        task := { st.task with
                  endTime := some now
                  actualTimeSeconds := some ((now - s).tdiv 1000000)
                  status := "pending_qa" },
        device := { st.device with currentStatus := "completed" },
        inspections := st.inspections
          ++ [{ inspector := none, decision := "pending",
                comments := "Awaiting quality inspection" }],
        notifications := st.notifications
          ++ notifyRole st.users "quality" "task_ready_for_inspection"
          ++ notifyRole st.users "tester" "task_ready_for_testing"
          ++ notifyRole st.users "supervisor" "task_completed" }

/-- The `decision` choices of the `Inspection` and `TesterReview` models. -/
def inspectionDecisionChoices : List String := ["pending", "accepted", "rejected"]

/-- Update the last element satisfying `p` (the `pending` inspection with
the greatest `created_at` under descending order, i.e. `.first()` of the
`order_by('-created_at')` queryset). -/
def updateLast {α : Type} (p : α → Bool) (f : α → α) : List α → List α
  | [] => []
  | x :: xs =>
    if xs.any p then x :: updateLast p f xs
    else if p x then f x :: xs
    else x :: xs

/-- The QA decision endpoint: `InspectionSerializer` field and `validate`
checks (`core/serializers.py`) followed by `InspectionViewSet.perform_create`
(`core/views.py`).  Validation: the decision must be a model choice;
`rejected` requires non-empty comments; the task must be `pending_qa`.
Execution: the latest pending inspection is updated in place (inspector,
decision, comments) — a new row is inserted only if no pending one exists —
then `accepted` moves the task to `pending_tester` and notifies active
testers, while `rejected` moves task and device to `rejected` and notifies
the assigned technician if any. -/
def qaDecision (st : WfState) (actor : Nat) (decision comments : String) :
    Except ApiError WfState :=
  if ¬ inspectionDecisionChoices.contains decision then
    .error (.validation "decision" "not a valid choice")
  else if decision == "rejected" && comments == "" then
    .error (.validation "comments" "Comments are mandatory when rejecting an inspection.")
  else if st.task.status ≠ "pending_qa" then
    .error (.validation "task_id" ("Task is not ready for QA inspection. Current status: "
      ++ getStatusDisplay st.task.status ++ "."))
  else
    let inspections' :=
      if st.inspections.any (fun i => i.decision == "pending") then
        updateLast (fun i => i.decision == "pending")
          (fun i => { i with
                      inspector := some actor
                      decision := decision
                      comments := comments }) st.inspections
      else
        st.inspections ++ [{ inspector := some actor
                             decision := decision
                             comments := comments }]
    if decision == "accepted" then
      .ok { st with
            inspections := inspections'
            task := { st.task with status := "pending_tester" }
            notifications := st.notifications
              ++ notifyRole st.users "tester" "task_ready_for_testing" }
    else if decision == "rejected" then
      let base := { st with
                    inspections := inspections'
                    task := { st.task with status := "rejected" }
                    device := { st.device with currentStatus := "rejected" } }
      match st.task.technician with
      | some t => .ok { base with
                        notifications := st.notifications
                          ++ [{ userId := t, type := "task_rejected" }] }
      | none => .ok base
    else
      .ok { st with inspections := inspections' }

/-- The tester decision endpoint: `TesterReviewSerializer.validate`
(`core/serializers.py`) followed by `TesterReviewViewSet.perform_create`
(`core/views.py`).  Validation: choice membership, non-empty comments when
rejecting, and task status `pending_tester`.  Execution: append a
`TesterReview` row; `accepted` moves the task to `pending_supervisor` and
notifies active supervisors, `rejected` moves task and device to
`rejected` and notifies the assigned technician if any. -/
def testerDecision (st : WfState) (actor : Nat) (decision comments : String) :
    Except ApiError WfState :=
  if ¬ inspectionDecisionChoices.contains decision then
    .error (.validation "decision" "not a valid choice")
  else if decision == "rejected" && comments == "" then
    .error (.validation "comments" "Comments are mandatory when rejecting a task during testing.")
  else if st.task.status ≠ "pending_tester" then
    .error (.validation "task_id" ("Task is not ready for tester review. Current status: "
      ++ getStatusDisplay st.task.status ++ "."))
  else
    let st1 := { st with testerReviews := st.testerReviews
      ++ [{ tester := some actor, decision := decision, comments := comments }] }
    if decision == "accepted" then
      .ok { st1 with
            task := { st.task with status := "pending_supervisor" }
            notifications := st.notifications
              ++ notifyRole st.users "supervisor" "task_ready_for_supervisor_review" }
    else if decision == "rejected" then
      let base := { st1 with
                    task := { st.task with status := "rejected" }
                    device := { st.device with currentStatus := "rejected" } }
      match st.task.technician with
      | some t => .ok { base with
                        notifications := st.notifications
                          ++ [{ userId := t, type := "task_rejected" }] }
      | none => .ok base
    else
      .ok st1

/-- The `decision` choices of the `SupervisorReview` model (no `pending`). -/
def supervisorDecisionChoices : List String := ["accepted", "rejected"]

/-- The supervisor decision endpoint: `SupervisorReviewSerializer`
(`core/serializers.py`) — which has NO `validate` method, so only the
referenced inspection's existence and the decision choice are checked —
followed by `SupervisorReviewViewSet.perform_create` (`core/views.py`).
Execution: append a `SupervisorReview` row; `accepted` moves the task to
`supervisor_approved` and the device to `completed` and notifies the
assigned technician and all active testers; `rejected` moves task and
device to `rejected` and notifies the assigned technician if any. -/
def supervisorDecision (st : WfState) (actor : Nat) (decision comments : String) :
    Except ApiError WfState :=
  if st.inspections.isEmpty then
    .error (.notFound "Inspection not found.")
  else if ¬ supervisorDecisionChoices.contains decision then
    .error (.validation "decision" "not a valid choice")
  else
    let st1 := { st with supervisorReviews := st.supervisorReviews
      ++ [({ supervisor := some actor, decision := decision,
             comments := comments } : SupervisorReview)] }
    if decision == "accepted" then
      let techNotif : List Notification :=
        match st.task.technician with
        | some t => [{ userId := t, type := "task_completed" }]
        | none => []
      .ok { st1 with
            task := { st.task with status := "supervisor_approved" }
            device := { st.device with currentStatus := "completed" }
            notifications := st.notifications ++ techNotif
              ++ notifyRole st.users "tester" "task_completed" }
    else
      let base := { st1 with
                    task := { st.task with status := "rejected" }
                    device := { st.device with currentStatus := "rejected" } }
      match st.task.technician with
      | some t => .ok { base with
                        notifications := st.notifications
                          ++ [{ userId := t, type := "task_rejected" }] }
      | none => .ok base

/-- C6: the start transition succeeds at most once.  A start on a task
whose status is not `available` fails with the conflict error carrying the
current status display, producing no new state (the handler returns before
any write, so technician, start_time, task status and device status are
untouched); and after any successful start, a second start fails the same
way with the `In Progress` status. -/
theorem c6_start_at_most_once (st : WfState) (a n a2 n2 : _) :
    (st.task.status ≠ "available" →
      startTask st a n = .error (.conflict ("Task cannot be started. Current status: "
        ++ getStatusDisplay st.task.status ++ ".")))
    ∧ (∀ st', startTask st a n = .ok st' →
        startTask st' a2 n2 = .error (.conflict "Task cannot be started. Current status: In Progress.")) := by
  constructor
  · intro h
    simp [startTask, h]
  · intro st' h
    by_cases hs : st.task.status = "available"
    · have : st' = { st with
        task := { st.task with
                  technician := some a
                  startTime := some n
                  status := "in_progress" },
        device := { st.device with currentStatus := "in_progress" } } := by
        simp [startTask, hs] at h
        exact h.symm
      subst this
      simp [startTask, getStatusDisplay]
    · simp [startTask, hs] at h

/-- Witness for C6: a second start on a just-started task fails. -/
def c6State : WfState :=
  { task := { technician := none, operationName := "assemble", standardTimeSeconds := 600,
              taskType := "technician", startTime := none, endTime := none,
              actualTimeSeconds := none, status := "in_progress" },
    device := { serialNumber := "JO-1-0001", currentStatus := "in_progress" },
    users := [], inspections := [], testerReviews := [], supervisorReviews := [],
    notifications := [] }

/-- Witness for C6 at a concrete in-progress task. -/
theorem c6_start_at_most_once_witness :
    c6State.task.status ≠ "available" ∧
      startTask c6State 1 0 = .error (.conflict ("Task cannot be started. Current status: "
        ++ getStatusDisplay c6State.task.status ++ ".")) :=
  ⟨by decide, (c6_start_at_most_once c6State 1 0 1 0).1 (by decide)⟩

/-- C7: an end request on an in-progress task by an actor other than the
assigned technician fails with the 403 error and produces no new state: no
task or device field changes, no inspection row and no notification is
created (the handler returns before the atomic block). -/
theorem c7_end_wrong_actor (st : WfState) (actor : Nat) (now : Int)
    (hstat : st.task.status = "in_progress")
    (hne : st.task.technician ≠ some actor) :
    endTask st actor now
      = .error (.forbidden "You are not the assigned technician for this task.")
    ∧ ∀ st', endTask st actor now ≠ .ok st' := by
  have h : endTask st actor now
      = .error (.forbidden "You are not the assigned technician for this task.") := by
    simp [endTask, hstat, hne]
  exact ⟨h, fun st' hok => by rw [h] at hok; exact Except.noConfusion hok⟩

/-- Witness state for C7: task in progress, assigned to technician 1. -/
def c7State : WfState :=
  { task := { technician := some 1, operationName := "assemble", standardTimeSeconds := 600,
              taskType := "technician", startTime := some 0, endTime := none,
              actualTimeSeconds := none, status := "in_progress" },
    device := { serialNumber := "JO-1-0001", currentStatus := "in_progress" },
    users := [], inspections := [], testerReviews := [], supervisorReviews := [],
    notifications := [] }

/-- Witness for C7: user 2 cannot end technician 1's task. -/
theorem c7_end_wrong_actor_witness :
    c7State.task.status = "in_progress" ∧ c7State.task.technician ≠ some 2 ∧
      endTask c7State 2 0
        = .error (.forbidden "You are not the assigned technician for this task.") :=
  ⟨rfl, by decide, (c7_end_wrong_actor c7State 2 0 rfl (by decide)).1⟩

/-- C8: a QA decision `rejected` with empty comments fails the serializer's
`validate` (whose comments check precedes every other check), so
`perform_create` never runs: no inspection, task, device or notification
mutation occurs — the operation returns the validation error for any
state. -/
theorem c8_qa_reject_needs_comments (st : WfState) (actor : Nat) :
    qaDecision st actor "rejected" ""
      = .error (.validation "comments" "Comments are mandatory when rejecting an inspection.")
    ∧ ∀ st', qaDecision st actor "rejected" "" ≠ .ok st' := by
  have h : qaDecision st actor "rejected" ""
      = .error (.validation "comments" "Comments are mandatory when rejecting an inspection.") := by
    simp [qaDecision, inspectionDecisionChoices]
  exact ⟨h, fun st' hok => by rw [h] at hok; exact Except.noConfusion hok⟩

/-- Number of notifications in `ns` addressed to user id `uid`. -/
def countTo (ns : List Notification) (uid : Nat) : Nat :=
  (ns.filter (fun n => n.userId == uid)).length

/-- The per-user notification count is additive over concatenation. -/
theorem countTo_append (a b : List Notification) (uid : Nat) :
    countTo (a ++ b) uid = countTo a uid + countTo b uid := by
  simp [countTo, List.filter_append]

/-- Unfolding the notification fan-out over the head of the user table. -/
theorem notifyRole_cons (x : User) (xs : List User) (role ty : String) :
    notifyRole (x :: xs) role ty
      = if x.role == role && x.isActive then
          ({ userId := x.id, type := ty } : Notification) :: notifyRole xs role ty
        else notifyRole xs role ty := by
  by_cases h : (x.role == role && x.isActive) = true <;>
    simp [notifyRole, List.filter_cons, h]

/-- Unfolding the per-user count over the head of a notification list. -/
theorem countTo_cons (n : Notification) (ns : List Notification) (uid : Nat) :
    countTo (n :: ns) uid = (if n.userId = uid then 1 else 0) + countTo ns uid := by
  by_cases h : n.userId = uid <;>
    simp [countTo, List.filter_cons, h, Nat.add_comm]

/-- A role fan-out sends nothing to a user id absent from the user table. -/
theorem countTo_notifyRole_of_id_notin (users : List User) (role ty : String) (uid : Nat)
    (h : ∀ v ∈ users, v.id ≠ uid) :
    countTo (notifyRole users role ty) uid = 0 := by
  induction users with
  | nil => rfl
  | cons x xs ih =>
    have hx : x.id ≠ uid := h x (by simp)
    have hxs : ∀ v ∈ xs, v.id ≠ uid := fun v hv => h v (by simp [hv])
    rw [notifyRole_cons]
    by_cases hf : (x.role == role && x.isActive) = true
    · rw [if_pos hf, countTo_cons]
      simp [hx, ih hxs]
    · rw [if_neg hf]
      exact ih hxs

/-- A role fan-out sends exactly one notification to each active user of
that role, provided user ids are unique (they are a primary key). -/
theorem countTo_notifyRole_of_mem (users : List User) (role ty : String) (u : User)
    (hnd : (users.map User.id).Nodup) (hm : u ∈ users) (ha : u.isActive = true)
    (hr : u.role = role) :
    countTo (notifyRole users role ty) u.id = 1 := by
  induction users with
  | nil => cases hm
  | cons x xs ih =>
    rw [List.map_cons, List.nodup_cons] at hnd
    rw [notifyRole_cons]
    rcases List.mem_cons.mp hm with hux | hux
    · subst hux
      have hf : (u.role == role && u.isActive) = true := by simp [hr, ha]
      rw [if_pos hf, countTo_cons]
      have hz : countTo (notifyRole xs role ty) u.id = 0 :=
        countTo_notifyRole_of_id_notin xs role ty u.id
          (fun v hv hveq => hnd.1 (hveq ▸ List.mem_map_of_mem User.id hv))
      simp [hz]
    · have hxid : x.id ≠ u.id :=
        fun he => hnd.1 (he ▸ List.mem_map_of_mem User.id hux)
      by_cases hf : (x.role == role && x.isActive) = true
      · rw [if_pos hf, countTo_cons]
        simp [hxid, ih hnd.2 hux]
      · rw [if_neg hf]
        exact ih hnd.2 hux

/-- A role fan-out sends nothing to a user of a different role, provided
user ids are unique. -/
theorem countTo_notifyRole_of_role_ne (users : List User) (role ty : String) (u : User)
    (hnd : (users.map User.id).Nodup) (hm : u ∈ users) (hr : u.role ≠ role) :
    countTo (notifyRole users role ty) u.id = 0 := by
  induction users with
  | nil => rfl
  | cons x xs ih =>
    rw [List.map_cons, List.nodup_cons] at hnd
    rw [notifyRole_cons]
    rcases List.mem_cons.mp hm with hux | hux
    · subst hux
      have hf : ¬ ((u.role == role && u.isActive) = true) := by simp [hr]
      rw [if_neg hf]
      exact countTo_notifyRole_of_id_notin xs role ty u.id
        (fun v hv hveq => hnd.1 (hveq ▸ List.mem_map_of_mem User.id hv))
    · have hxid : x.id ≠ u.id :=
        fun he => hnd.1 (he ▸ List.mem_map_of_mem User.id hux)
      by_cases hf : (x.role == role && x.isActive) = true
      · rw [if_pos hf, countTo_cons]
        simp [hxid, ih hnd.2 hux]
      · rw [if_neg hf]
        exact ih hnd.2 hux

/-- C1: ending an in-progress task (with a start time, by its assigned
technician) stamps `end_time := now`, stores the floor of the elapsed time
in whole seconds, moves the task to `pending_qa` and the device to
`completed`, appends exactly one pending inspection with a null inspector,
appends exactly the three role fan-outs as notifications, and — user ids
being unique — each active quality, tester or supervisor user receives
exactly one of the created notifications. -/
theorem c1_end_transition (st : WfState) (actor : Nat) (now s : Int)
    (hstat : st.task.status = "in_progress")
    (htech : st.task.technician = some actor)
    (hstart : st.task.startTime = some s)
    (hle : s ≤ now) :
    ∃ st', endTask st actor now = .ok st'
      ∧ st'.task.endTime = some now
      ∧ st'.task.actualTimeSeconds = some ((now - s).fdiv 1000000)
      ∧ st'.task.status = "pending_qa"
      ∧ st'.device.currentStatus = "completed"
      ∧ st'.inspections = st.inspections
          ++ [{ inspector := none, decision := "pending",
                comments := "Awaiting quality inspection" }]
      ∧ st'.notifications = st.notifications
          ++ notifyRole st.users "quality" "task_ready_for_inspection"
          ++ notifyRole st.users "tester" "task_ready_for_testing"
          ++ notifyRole st.users "supervisor" "task_completed"
      ∧ ((st.users.map User.id).Nodup →
          ∀ u ∈ st.users, u.isActive = true →
            (u.role = "quality" ∨ u.role = "tester" ∨ u.role = "supervisor") →
            countTo (notifyRole st.users "quality" "task_ready_for_inspection"
              ++ notifyRole st.users "tester" "task_ready_for_testing"
              ++ notifyRole st.users "supervisor" "task_completed") u.id = 1) := by
  have hdiv : (now - s).tdiv 1000000 = (now - s).fdiv 1000000 := by
    rw [Int.tdiv_eq_ediv (by omega) (by norm_num), Int.fdiv_eq_ediv _ (by norm_num)]
  refine ⟨{ st with
            task := { st.task with
                      endTime := some now
                      actualTimeSeconds := some ((now - s).tdiv 1000000)
                      status := "pending_qa" }
            device := { st.device with currentStatus := "completed" }
            inspections := st.inspections
              ++ [{ inspector := none, decision := "pending",
                    comments := "Awaiting quality inspection" }]
            notifications := st.notifications
              ++ notifyRole st.users "quality" "task_ready_for_inspection"
              ++ notifyRole st.users "tester" "task_ready_for_testing"
              ++ notifyRole st.users "supervisor" "task_completed" },
    ?_, rfl, by rw [hdiv], rfl, rfl, rfl, rfl, ?_⟩
  · simp [endTask, hstat, htech, hstart]
  · intro hnd u hm ha hrole
    rw [countTo_append, countTo_append]
    rcases hrole with hr | hr | hr
    · rw [countTo_notifyRole_of_mem st.users _ _ u hnd hm ha hr,
          countTo_notifyRole_of_role_ne st.users _ _ u hnd hm (by rw [hr]; decide),
          countTo_notifyRole_of_role_ne st.users _ _ u hnd hm (by rw [hr]; decide)]
    · rw [countTo_notifyRole_of_role_ne st.users _ _ u hnd hm (by rw [hr]; decide),
          countTo_notifyRole_of_mem st.users _ _ u hnd hm ha hr,
          countTo_notifyRole_of_role_ne st.users _ _ u hnd hm (by rw [hr]; decide)]
    · rw [countTo_notifyRole_of_role_ne st.users _ _ u hnd hm (by rw [hr]; decide),
          countTo_notifyRole_of_role_ne st.users _ _ u hnd hm (by rw [hr]; decide),
          countTo_notifyRole_of_mem st.users _ _ u hnd hm ha hr]

/-- Witness state for C1: an in-progress task held by technician 1, one
active user in each notified role. -/
def c1State : WfState :=
  { task := { technician := some 1, operationName := "assemble", standardTimeSeconds := 600,
              taskType := "technician", startTime := some 0, endTime := none,
              actualTimeSeconds := none, status := "in_progress" },
    device := { serialNumber := "JO-1-0001", currentStatus := "in_progress" },
    users := [ { id := 2, role := "quality", isActive := true },
               { id := 3, role := "tester", isActive := true },
               { id := 4, role := "supervisor", isActive := true } ],
    inspections := [], testerReviews := [], supervisorReviews := [],
    notifications := [] }

/-- Witness for C1 at a concrete state, ending after 500.5 s. -/
theorem c1_end_transition_witness :
    c1State.task.status = "in_progress" ∧ c1State.task.technician = some 1 ∧
      c1State.task.startTime = some 0 ∧ (0 : ℤ) ≤ 500500000 ∧
      ∃ st', endTask c1State 1 500500000 = .ok st'
        ∧ st'.task.endTime = some 500500000
        ∧ st'.task.actualTimeSeconds = some (((500500000 : ℤ) - 0).fdiv 1000000)
        ∧ st'.task.status = "pending_qa"
        ∧ st'.device.currentStatus = "completed"
        ∧ st'.inspections = c1State.inspections
            ++ [{ inspector := none, decision := "pending",
                  comments := "Awaiting quality inspection" }]
        ∧ st'.notifications = c1State.notifications
            ++ notifyRole c1State.users "quality" "task_ready_for_inspection"
            ++ notifyRole c1State.users "tester" "task_ready_for_testing"
            ++ notifyRole c1State.users "supervisor" "task_completed"
        ∧ ((c1State.users.map User.id).Nodup →
            ∀ u ∈ c1State.users, u.isActive = true →
              (u.role = "quality" ∨ u.role = "tester" ∨ u.role = "supervisor") →
              countTo (notifyRole c1State.users "quality" "task_ready_for_inspection"
                ++ notifyRole c1State.users "tester" "task_ready_for_testing"
                ++ notifyRole c1State.users "supervisor" "task_completed") u.id = 1) :=
  ⟨rfl, rfl, rfl, by decide,
    c1_end_transition c1State 1 500500000 0 rfl rfl rfl (by decide)⟩

/-- Helper `updateLast` rewrites exactly one element: the last position satisfying
`p`, through `f`, leaving every other position unchanged. -/
theorem updateLast_spec {α : Type} (p : α → Bool) (f : α → α) (l : List α)
    (h : l.any p = true) :
    ∃ k, ∃ hk : k < l.length, p (l.get ⟨k, hk⟩) = true
      ∧ updateLast p f l = l.set k (f (l.get ⟨k, hk⟩)) := by
  induction l with
  | nil => cases h
  | cons x xs ih =>
    by_cases hxs : xs.any p = true
    · obtain ⟨k, hk, hp, heq⟩ := ih hxs
      refine ⟨k + 1, by simpa using Nat.succ_lt_succ hk, ?_, ?_⟩
      · simpa using hp
      · simp [updateLast, hxs, heq, List.set]
    · have hx : p x = true := by
        simp [List.any_cons, hxs] at h
        exact h
      refine ⟨0, by simp, by simpa using hx, ?_⟩
      simp [updateLast, hxs, hx, List.set]

/-- C4: a QA decision on a `pending_qa` task that already has a pending
inspection updates the latest pending inspection in place — inspector set
to the actor, decision and comments overwritten — inserting no new row
(the inspection count is unchanged); `accepted` moves the task to
`pending_tester`, and `rejected` (with the mandatory non-empty comments)
moves the task and its device to `rejected`. -/
theorem c4_qa_updates_pending_inspection (st : WfState) (actor : Nat) (comments : String)
    (hq : st.task.status = "pending_qa")
    (hp : st.inspections.any (fun i => i.decision == "pending") = true) :
    (∃ st', ∃ k, ∃ hk : k < st.inspections.length,
        qaDecision st actor "accepted" comments = .ok st'
        ∧ (st.inspections.get ⟨k, hk⟩).decision = "pending"
        ∧ st'.inspections = st.inspections.set k
            { st.inspections.get ⟨k, hk⟩ with
              inspector := some actor
              decision := "accepted"
              comments := comments }
        ∧ st'.inspections.length = st.inspections.length
        ∧ st'.task.status = "pending_tester")
    ∧ (comments ≠ "" →
       ∃ st', ∃ k, ∃ hk : k < st.inspections.length,
        qaDecision st actor "rejected" comments = .ok st'
        ∧ (st.inspections.get ⟨k, hk⟩).decision = "pending"
        ∧ st'.inspections = st.inspections.set k
            { st.inspections.get ⟨k, hk⟩ with
              inspector := some actor
              decision := "rejected"
              comments := comments }
        ∧ st'.inspections.length = st.inspections.length
        ∧ st'.task.status = "rejected"
        ∧ st'.device.currentStatus = "rejected") := by
  constructor
  · obtain ⟨k, hk, hpend, heq⟩ := updateLast_spec (fun i => i.decision == "pending")
      (fun i => { i with
                  inspector := some actor
                  decision := "accepted"
                  comments := comments }) st.inspections hp
    have hqa : qaDecision st actor "accepted" comments = .ok { st with
        inspections := updateLast (fun i => i.decision == "pending")
          (fun i => { i with
                      inspector := some actor
                      decision := "accepted"
                      comments := comments }) st.inspections
        task := { st.task with status := "pending_tester" }
        notifications := st.notifications
          ++ notifyRole st.users "tester" "task_ready_for_testing" } := by
      simp [qaDecision, inspectionDecisionChoices, hq, hp]
    refine ⟨_, k, hk, hqa, by simpa using hpend, ?_, ?_, rfl⟩
    · simpa using heq
    · simp [heq]
  · intro hc
    obtain ⟨k, hk, hpend, heq⟩ := updateLast_spec (fun i => i.decision == "pending")
      (fun i => { i with
                  inspector := some actor
                  decision := "rejected"
                  comments := comments }) st.inspections hp
    cases htech : st.task.technician with
    | some t =>
      have hqa : qaDecision st actor "rejected" comments = .ok { st with
          inspections := updateLast (fun i => i.decision == "pending")
            (fun i => { i with
                        inspector := some actor
                        decision := "rejected"
                        comments := comments }) st.inspections
          task := { st.task with status := "rejected" }
          device := { st.device with currentStatus := "rejected" }
          notifications := st.notifications
            ++ [{ userId := t, type := "task_rejected" }] } := by
        simp [qaDecision, inspectionDecisionChoices, hq, hp, hc, htech]
      refine ⟨_, k, hk, hqa, by simpa using hpend, ?_, ?_, rfl, rfl⟩
      · simpa using heq
      · simp [heq]
    | none =>
      have hqa : qaDecision st actor "rejected" comments = .ok { st with
          inspections := updateLast (fun i => i.decision == "pending")
            (fun i => { i with
                        inspector := some actor
                        decision := "rejected"
                        comments := comments }) st.inspections
          task := { st.task with status := "rejected" }
          device := { st.device with currentStatus := "rejected" } } := by
        simp [qaDecision, inspectionDecisionChoices, hq, hp, hc, htech]
      refine ⟨_, k, hk, hqa, by simpa using hpend, ?_, ?_, rfl, rfl⟩
      · simpa using heq
      · simp [heq]

/-- Witness state for C4: a `pending_qa` task with one pending inspection. -/
def c4State : WfState :=
  { task := { technician := some 1, operationName := "assemble", standardTimeSeconds := 600,
              taskType := "technician", startTime := some 0, endTime := some 500000000,
              actualTimeSeconds := some 500, status := "pending_qa" },
    device := { serialNumber := "JO-1-0001", currentStatus := "completed" },
    users := [ { id := 2, role := "quality", isActive := true } ],
    inspections := [ { inspector := none, decision := "pending",
                       comments := "Awaiting quality inspection" } ],
    testerReviews := [], supervisorReviews := [], notifications := [] }

/-- Witness for C4 at a concrete state, for both decisions. -/
theorem c4_qa_updates_pending_inspection_witness :
    c4State.task.status = "pending_qa"
    ∧ (c4State.inspections.any (fun i => i.decision == "pending")) = true
    ∧ (∃ st', ∃ k, ∃ hk : k < c4State.inspections.length,
        qaDecision c4State 2 "accepted" "looks good" = .ok st'
        ∧ (c4State.inspections.get ⟨k, hk⟩).decision = "pending"
        ∧ st'.inspections = c4State.inspections.set k
            { c4State.inspections.get ⟨k, hk⟩ with
              inspector := some 2
              decision := "accepted"
              comments := "looks good" }
        ∧ st'.inspections.length = c4State.inspections.length
        ∧ st'.task.status = "pending_tester") :=
  ⟨rfl, by decide,
    (c4_qa_updates_pending_inspection c4State 2 "looks good" rfl (by decide)).1⟩

/-- Counterexample state for C5: a task already `supervisor_approved`,
with its accepted inspection on file. -/
def c5State : WfState :=
  { task := { technician := some 1, operationName := "assemble", standardTimeSeconds := 600,
              taskType := "technician", startTime := some 0, endTime := some 500000000,
              actualTimeSeconds := some 500, status := "supervisor_approved" },
    device := { serialNumber := "JO-1-0001", currentStatus := "completed" },
    users := [],
    inspections := [ { inspector := some 2, decision := "accepted", comments := "ok" } ],
    testerReviews := [], supervisorReviews := [], notifications := [] }

/-- C5 counterexample: `supervisor_approved` is not terminal.  The
supervisor-review serializer has no status precondition, so a supervisor
decision `rejected` against the task's inspection succeeds and moves the
`supervisor_approved` task (and its device) to `rejected`. -/
theorem c5_counterexample :
    c5State.task.status = "supervisor_approved"
    ∧ ∃ st', supervisorDecision c5State 5 "rejected" "regression found" = .ok st'
        ∧ st'.task.status = "rejected"
        ∧ st'.task.status ≠ "supervisor_approved" :=
  ⟨rfl, _, rfl, rfl, by decide⟩

/-- C5 amended: for a `supervisor_approved` task, the start, end,
qa-decision and tester-decision transitions all fail (they produce no new
state), and a supervisor decision `accepted` leaves the status at
`supervisor_approved`; but a supervisor decision `rejected` succeeds
(whenever an inspection exists) and changes the status to `rejected`, so
`supervisor_approved` is terminal only for the other transitions. -/
theorem c5_amended_terminality (st : WfState) (a : Nat) (n : Int) (d c : String)
    (h : st.task.status = "supervisor_approved") :
    (∀ st', startTask st a n ≠ .ok st')
    ∧ (∀ st', endTask st a n ≠ .ok st')
    ∧ (∀ st', qaDecision st a d c ≠ .ok st')
    ∧ (∀ st', testerDecision st a d c ≠ .ok st')
    ∧ (∀ st', supervisorDecision st a "accepted" c = .ok st' →
        st'.task.status = "supervisor_approved")
    ∧ (st.inspections ≠ [] →
        ∃ st', supervisorDecision st a "rejected" c = .ok st'
          ∧ st'.task.status = "rejected") := by
  refine ⟨?_, ?_, ?_, ?_, ?_, ?_⟩
  · intro st' hok
    simp [startTask, h] at hok
  · intro st' hok
    simp [endTask, h] at hok
  · intro st' hok
    unfold qaDecision at hok
    split at hok
    · exact Except.noConfusion hok
    · split at hok
      · exact Except.noConfusion hok
      · split at hok
        · exact Except.noConfusion hok
        · rename_i hcond
          rw [h] at hcond
          simp at hcond
  · intro st' hok
    unfold testerDecision at hok
    split at hok
    · exact Except.noConfusion hok
    · split at hok
      · exact Except.noConfusion hok
      · split at hok
        · exact Except.noConfusion hok
        · rename_i hcond
          rw [h] at hcond
          simp at hcond
  · intro st' hok
    unfold supervisorDecision at hok
    split at hok
    · exact Except.noConfusion hok
    · split at hok
      · exact Except.noConfusion hok
      · simp only [show ("accepted" == "accepted") = true from rfl, if_true] at hok
        cases hok
        rfl
  · intro hne
    have hemp : st.inspections.isEmpty = false := by
      cases hi : st.inspections with
      | nil => exact absurd hi hne
      | cons x xs => rfl
    cases htech : st.task.technician with
    | some t =>
      have hsd : supervisorDecision st a "rejected" c = .ok { st with
          supervisorReviews := st.supervisorReviews
            ++ [({ supervisor := some a, decision := "rejected",
                   comments := c } : SupervisorReview)]
          task := { st.task with status := "rejected" }
          device := { st.device with currentStatus := "rejected" }
          notifications := st.notifications
            ++ [{ userId := t, type := "task_rejected" }] } := by
        simp [supervisorDecision, supervisorDecisionChoices, hemp, htech]
      exact ⟨_, hsd, rfl⟩
    | none =>
      have hsd : supervisorDecision st a "rejected" c = .ok { st with
          supervisorReviews := st.supervisorReviews
            ++ [({ supervisor := some a, decision := "rejected",
                   comments := c } : SupervisorReview)]
          task := { st.task with status := "rejected" }
          device := { st.device with currentStatus := "rejected" } } := by
        simp [supervisorDecision, supervisorDecisionChoices, hemp, htech]
      exact ⟨_, hsd, rfl⟩

/-- Witness for the amended C5 at a concrete `supervisor_approved` state. -/
theorem c5_amended_terminality_witness :
    c5State.task.status = "supervisor_approved"
    ∧ (∀ st', startTask c5State 1 0 ≠ .ok st')
    ∧ (∀ st', supervisorDecision c5State 1 "accepted" "" = .ok st' →
        st'.task.status = "supervisor_approved") :=
  ⟨rfl, (c5_amended_terminality c5State 1 0 "accepted" "" rfl).1,
    (c5_amended_terminality c5State 1 0 "accepted" "" rfl).2.2.2.2.1⟩

/-- Python's `x or 0` on a non-null integer. -/
def pyOrZeroInt (x : Int) : Int := if x == 0 then 0 else x

/-- Python's `x or 0` on a nullable integer. -/
def pyOrZeroOpt (x : Option Int) : Int :=
  match x with
  | none => 0
  | some v => if v == 0 then 0 else v

/-- Constant `TOTAL_AVAILABLE_TIME_SECONDS` from the Django settings: an 8-hour
shift, 28800 seconds. -/
def totalAvailableTimeSeconds : Int := 28800

/-- A `Task` row as read by the metrics aggregator: assignee, status, the
calendar day of `end_time` (`end_time__date`; null when `end_time` is
null, hence never equal to a target date), and the two durations. -/
structure MetricsTask where
  technicianId : Nat
  status : String
  endDate : Option Int
  standardTimeSeconds : Int
  actualTimeSeconds : Option Int
deriving DecidableEq

/-- The dictionary returned by `calculate_technician_metrics` (the `date`
key is the input and is omitted). -/
structure TechnicianMetrics where
  productivity : ℚ
  averageEfficiency : ℚ
  utilization : ℚ
  tasksCompleted : Nat
deriving DecidableEq

/-- Aggregator `calculate_technician_metrics` (`core/metrics/calculations.py`): filter
the technician's `done` tasks whose `end_time` date is the target date; if
none, return all-zero metrics; otherwise productivity and utilization are
the summed standard (resp. actual, with SQL `Sum` skipping nulls) seconds
over the shift capacity times 100, and efficiency is the per-task
`(standard or 0) / (actual or 0) * 100` averaged over the tasks with
positive actual time (0.0 if there are none); all three rounded to two
decimals. -/
def calculateTechnicianMetrics (tasks : List MetricsTask) (technicianId : Nat)
    (targetDate : Int) : TechnicianMetrics :=
  let completed := tasks.filter (fun t =>
    t.technicianId == technicianId && t.status == "done" && t.endDate == some targetDate)
  if completed.isEmpty then
    { productivity := 0, averageEfficiency := 0, utilization := 0, tasksCompleted := 0 }
  else
    let totalStandard : Int := (completed.map (fun t => t.standardTimeSeconds)).sum
    let totalActual : Int := (completed.filterMap (fun t => t.actualTimeSeconds)).sum
    let productivity : ℚ :=
      if 0 < totalAvailableTimeSeconds then
        (totalStandard : ℚ) / (totalAvailableTimeSeconds : ℚ) * 100
      else 0
    let utilization : ℚ :=
      if 0 < totalAvailableTimeSeconds then
        (totalActual : ℚ) / (totalAvailableTimeSeconds : ℚ) * 100
      else 0
    let efficiencies : List ℚ := completed.filterMap (fun t =>
      let stdSec := pyOrZeroInt t.standardTimeSeconds
      let actSec := pyOrZeroOpt t.actualTimeSeconds
      if 0 < actSec then some ((stdSec : ℚ) / (actSec : ℚ) * 100) else none)
    let averageEfficiency : ℚ :=
      if efficiencies.isEmpty then 0 else efficiencies.sum / (efficiencies.length : ℚ)
    { productivity := round2 productivity
      averageEfficiency := round2 averageEfficiency
      utilization := round2 utilization
      tasksCompleted := efficiencies.length }

/-- Python `x or 0` is the identity on integers. -/
theorem pyOrZeroInt_eq (x : Int) : pyOrZeroInt x = x := by
  by_cases h : x = 0 <;> simp [pyOrZeroInt, h]

/-- Python `x or 0` on a nullable integer is `getD 0`. -/
theorem pyOrZeroOpt_eq_getD (x : Option Int) : pyOrZeroOpt x = x.getD 0 := by
  cases x with
  | none => rfl
  | some v => by_cases h : v = 0 <;> simp [pyOrZeroOpt, h]

/-- SQL `Sum` over a nullable column (nulls skipped) equals the sum with
nulls read as zero. -/
theorem sum_filterMap_actual (l : List MetricsTask) :
    (l.filterMap (fun t => t.actualTimeSeconds)).sum
      = (l.map (fun t => t.actualTimeSeconds.getD 0)).sum := by
  induction l with
  | nil => rfl
  | cons x xs ih =>
    cases hx : x.actualTimeSeconds <;> simp [List.filterMap_cons, hx, ih]

/-- A filterMap of a conditional is the map over the filtered sublist. -/
theorem filterMap_ite_eq_map_filter {α β : Type} (p : α → Prop) [DecidablePred p]
    (g : α → β) (l : List α) :
    (l.filterMap (fun a => if p a then some (g a) else none))
      = (l.filter (fun a => decide (p a))).map g := by
  induction l with
  | nil => rfl
  | cons x xs ih =>
    by_cases h : p x <;> simp [List.filterMap_cons, List.filter_cons, h, ih]

/-- C9: the technician daily metrics over that technician's completed
(`done`) tasks ending on the target date: productivity is
Σ standard / 28800 × 100, utilization is Σ actual / 28800 × 100 (null
actual times contribute nothing), efficiency is the arithmetic mean of
the per-task values standard/actual × 100 over the completed tasks with
positive actual time (per-task values averaged, not a pooled ratio), each
rounded to two decimals; and all three are 0.0 when no completed task
matches. -/
theorem c9_technician_metrics (tasks : List MetricsTask) (tech : Nat) (date : Int) :
    (tasks.filter (fun t =>
        t.technicianId == tech && t.status == "done" && t.endDate == some date) = [] →
      calculateTechnicianMetrics tasks tech date
        = { productivity := 0, averageEfficiency := 0, utilization := 0, tasksCompleted := 0 })
    ∧ (∀ completed, completed = tasks.filter (fun t =>
          t.technicianId == tech && t.status == "done" && t.endDate == some date) →
        completed ≠ [] →
        ((calculateTechnicianMetrics tasks tech date).productivity
            = round2 ((((completed.map (fun t => t.standardTimeSeconds)).sum : ℚ) / 28800) * 100)
        ∧ (calculateTechnicianMetrics tasks tech date).utilization
            = round2 ((((completed.map (fun t => t.actualTimeSeconds.getD 0)).sum : ℚ) / 28800) * 100)
        ∧ (∀ eligible, eligible
              = completed.filter (fun t => decide (0 < t.actualTimeSeconds.getD 0)) →
            eligible ≠ [] →
            (calculateTechnicianMetrics tasks tech date).averageEfficiency
              = round2 ((eligible.map (fun t =>
                  (t.standardTimeSeconds : ℚ) / (t.actualTimeSeconds.getD 0 : ℚ) * 100)).sum
                  / (eligible.length : ℚ))))) := by
  constructor
  · intro h
    simp [calculateTechnicianMetrics, h]
  · intro completed hce hne
    have hemp : (tasks.filter (fun t =>
        t.technicianId == tech && t.status == "done" && t.endDate == some date)).isEmpty
          = false := by
      rw [← hce]
      cases hc : completed with
      | nil => exact absurd hc hne
      | cons x xs => rfl
    have heffs : (tasks.filter (fun t =>
          t.technicianId == tech && t.status == "done" && t.endDate == some date)).filterMap
            (fun t =>
              let stdSec := pyOrZeroInt t.standardTimeSeconds
              let actSec := pyOrZeroOpt t.actualTimeSeconds
              if 0 < actSec then some ((stdSec : ℚ) / (actSec : ℚ) * 100) else none)
        = ((tasks.filter (fun t =>
            t.technicianId == tech && t.status == "done" && t.endDate == some date)).filter
              (fun t => decide (0 < t.actualTimeSeconds.getD 0))).map
            (fun t => (t.standardTimeSeconds : ℚ) / (t.actualTimeSeconds.getD 0 : ℚ) * 100) := by
      rw [show (fun (t : MetricsTask) =>
            let stdSec := pyOrZeroInt t.standardTimeSeconds
            let actSec := pyOrZeroOpt t.actualTimeSeconds
            if 0 < actSec then some ((stdSec : ℚ) / (actSec : ℚ) * 100) else none)
          = (fun (t : MetricsTask) =>
            if 0 < t.actualTimeSeconds.getD 0 then
              some ((t.standardTimeSeconds : ℚ) / (t.actualTimeSeconds.getD 0 : ℚ) * 100)
            else none) from funext (fun t => by
              simp [pyOrZeroInt_eq, pyOrZeroOpt_eq_getD])]
      exact filterMap_ite_eq_map_filter _ _ _
    refine ⟨?_, ?_, ?_⟩
    · rw [hce]
      simp [calculateTechnicianMetrics, hemp, totalAvailableTimeSeconds, Function.comp_def]
    · rw [hce]
      simp [calculateTechnicianMetrics, hemp, totalAvailableTimeSeconds,
        sum_filterMap_actual, Function.comp_def]
    · intro eligible hel hnel
      subst hce
      subst hel
      have hmapne : (((tasks.filter (fun t =>
            t.technicianId == tech && t.status == "done" && t.endDate == some date)).filter
              (fun t => decide (0 < t.actualTimeSeconds.getD 0))).map
            (fun t => (t.standardTimeSeconds : ℚ) / (t.actualTimeSeconds.getD 0 : ℚ) * 100)).isEmpty
          = false := by
        cases hc : (tasks.filter (fun t =>
            t.technicianId == tech && t.status == "done" && t.endDate == some date)).filter
              (fun t => decide (0 < t.actualTimeSeconds.getD 0)) with
        | nil => exact absurd hc hnel
        | cons x xs => simp [hc]
      simp only [calculateTechnicianMetrics, hemp, Bool.false_eq_true, if_false, heffs,
        hmapne]
      simp

/-- A concrete completed task for the C9 witness: 600 s standard, 500 s
actual, done by technician 1 on day 0. -/
def c9Task : MetricsTask :=
  { technicianId := 1, status := "done", endDate := some 0,
    standardTimeSeconds := 600, actualTimeSeconds := some 500 }

/-- Witness for C9 on a one-task day. -/
theorem c9_technician_metrics_witness :
    ([c9Task] : List MetricsTask)
        = [c9Task].filter (fun t =>
            t.technicianId == 1 && t.status == "done" && t.endDate == some 0)
    ∧ ([c9Task] : List MetricsTask) ≠ []
    ∧ (calculateTechnicianMetrics [c9Task] 1 0).productivity
        = round2 (((([c9Task].map (fun t => t.standardTimeSeconds)).sum : ℚ) / 28800) * 100)
    ∧ (calculateTechnicianMetrics [c9Task] 1 0).averageEfficiency
        = round2 ((([c9Task].filter (fun t => decide (0 < t.actualTimeSeconds.getD 0))).map
            (fun t => (t.standardTimeSeconds : ℚ) / (t.actualTimeSeconds.getD 0 : ℚ) * 100)).sum
            / (([c9Task].filter (fun t => decide (0 < t.actualTimeSeconds.getD 0))).length : ℚ)) :=
  ⟨by decide, by decide,
    ((c9_technician_metrics [c9Task] 1 0).2 [c9Task] (by decide) (by decide)).1,
    ((c9_technician_metrics [c9Task] 1 0).2 [c9Task] (by decide) (by decide)).2.2
      ([c9Task].filter (fun t => decide (0 < t.actualTimeSeconds.getD 0))) rfl (by decide)⟩

/-- Witness state for C8: a `pending_qa` task with its pending inspection. -/
def c8State : WfState :=
  { task := { technician := some 1, operationName := "assemble", standardTimeSeconds := 600,
              taskType := "technician", startTime := some 0, endTime := some 500000000,
              actualTimeSeconds := some 500, status := "pending_qa" },
    device := { serialNumber := "JO-1-0002", currentStatus := "completed" },
    users := [ { id := 2, role := "quality", isActive := true } ],
    inspections := [ { inspector := none, decision := "pending",
                       comments := "Awaiting quality inspection" } ],
    testerReviews := [], supervisorReviews := [], notifications := [] }

/-- Witness for C8 at a concrete state. -/
theorem c8_qa_reject_needs_comments_witness :
    qaDecision c8State 2 "rejected" ""
      = .error (.validation "comments" "Comments are mandatory when rejecting an inspection.") :=
  (c8_qa_reject_needs_comments c8State 2).1

end JODDB
